import Mathlib

/-!
Verification development for the LiTeFlow streaming-metrics module
(`liteflow/metrics.py`).

The module defines a `StreamingMetric` adapter class wrapping a scoring
function together with a streaming-average accumulator, and an `accuracy`
scoring function over tensors.  Here tensors are embedded shallowly as a
shape (list of dimension sizes, row-major layout) together with a flat
list of rational scalar values; the TensorFlow operations used by the
source (`tf.equal`, `tf.cast`, `tf.multiply`, `tf.argmax`) are embedded
as functions on this representation, with graph-construction shape
errors made explicit through `Except`.
-/

/-- A tensor: a shape `[d_0, ..., d_{r-1}]` and the flat row-major list of
its scalar values (all scalar dtypes are represented by rationals). -/
structure Tensor where
  shape : List Nat
  data : List Rat
deriving DecidableEq

/-- The rank of a tensor, `tensor.get_shape().ndims` in the source. -/
def Tensor.rank (t : Tensor) : Nat := t.shape.length

/-- Errors surfaced at graph-construction time: the explicit rank check of
`accuracy` (a Python `ValueError`, carrying the two observed ranks), and
the shape-compatibility check of elementwise operations. -/
inductive Err where
  | rank (pr tr : Nat)
  | broadcast (s1 s2 : List Nat)
deriving DecidableEq

/-- The message of the `ValueError` raised by `accuracy` (metrics.py lines
194-196), with the two ranks rendered into the format string. -/
def rankErrorMessage (pr tr : Nat) : String :=
  "Rank of `predictions` must be equal to rank of `label` or greater of 1, found " ++ (toString pr ++ (" and " ++ (toString tr ++ " instead.")))

deriving instance DecidableEq for Except

/-- The error message attached to each graph-construction error. -/
def Err.message : Err → String
  | .rank pr tr => rankErrorMessage pr tr
  | .broadcast s1 s2 =>
      "Incompatible shapes " ++ (toString s1 ++ (" and " ++ toString s2))

/-- Left-pad a shape with size-1 dimensions up to length `n` (NumPy-style
broadcast alignment from the trailing axis). -/
def padShape (n : Nat) (s : List Nat) : List Nat :=
  List.replicate (n - s.length) 1 ++ s

/-- Broadcast two already-aligned dimension lists: dimensions must be equal
or one of them 1; the result takes the larger dimension. -/
def broadcastDims : List Nat → List Nat → Option (List Nat)
  | [], [] => some []
  | a :: as, b :: bs => do
      let rest ← broadcastDims as bs
      if a = b then some (a :: rest)
      else if a = 1 then some (b :: rest)
      else if b = 1 then some (a :: rest)
      else none
  | _, _ => none

/-- Broadcast two shapes, aligning from the trailing axis. -/
def broadcastShapes (s1 s2 : List Nat) : Option (List Nat) :=
  let n := max s1.length s2.length
  broadcastDims (padShape n s1) (padShape n s2)

/-- Row-major multi-index of flat index `i` in the given shape. -/
def unflattenIndex : List Nat → Nat → List Nat
  | [], _ => []
  | _ :: ds, i => (i / ds.prod) :: unflattenIndex ds (i % ds.prod)

/-- Row-major flat index of a multi-index in the given shape. -/
def flattenIndex : List Nat → List Nat → Nat
  | _ :: ds, j :: js => j * ds.prod + flattenIndex ds js
  | _, _ => 0

/-- Materialise the broadcast of a tensor's data to an output shape: each
output index maps back to the source index, collapsing size-1 source
dimensions. -/
def gatherData (srcShape : List Nat) (src : List Rat) (outShape : List Nat) : List Rat :=
  let ps := padShape outShape.length srcShape
  (List.range outShape.prod).map (fun i =>
    let idx := unflattenIndex outShape i
    let sidx := List.zipWith (fun d j => if d = 1 then 0 else j) ps idx
    src.getD (flattenIndex ps sidx) 0)

/-- Elementwise binary operation with NumPy/TensorFlow broadcasting.  When
the two shapes coincide (the only case arising in the claims' examples)
broadcasting is the identity and the operation zips the flat data; shapes
that are not broadcast-compatible are a graph-construction error, as in
TensorFlow. -/
def elementwise (f : Rat → Rat → Rat) (a b : Tensor) : Except Err Tensor :=
  if a.shape = b.shape then
    .ok ⟨a.shape, List.zipWith f a.data b.data⟩
  else
    match broadcastShapes a.shape b.shape with
    | some sh =>
        .ok ⟨sh, List.zipWith f (gatherData a.shape a.data sh) (gatherData b.shape b.data sh)⟩
    | none => .error (.broadcast a.shape b.shape)

/-- `tf.equal`: elementwise equality; the boolean result is represented
numerically (1 for true, 0 for false). -/
def tfEqual (a b : Tensor) : Except Err Tensor :=
  elementwise (fun x y => if x = y then 1 else 0) a b

/-- `tf.cast(x, tf.float32)` applied to the boolean output of `tfEqual`: in
this model the truth values are already the numeric scalars 0 and 1, so
the cast is the identity on the represented values. -/
def tfCastFloat (t : Tensor) : Tensor := t

/-- `tf.multiply`: elementwise product (with broadcasting). -/
def tfMultiply (a b : Tensor) : Except Err Tensor :=
  elementwise (fun x y => x * y) a b

/-- Index of the first maximum in a row, accumulator form. -/
def argmaxAux : List Rat → Nat → Nat → Rat → Nat
  | [], _, best, _ => best
  | x :: xs, i, best, bv =>
      if bv < x then argmaxAux xs (i + 1) i x else argmaxAux xs (i + 1) best bv

/-- Index of the first maximum of a row (0 on the degenerate empty row). -/
def argmaxRow : List Rat → Nat
  | [] => 0
  | x :: xs => argmaxAux xs 1 0 x

/-- `tf.argmax(t, axis=-1)`: reduce the trailing axis, replacing each row of
`k` consecutive scalars with the index of its (first) maximum. -/
def tfArgmaxLast (t : Tensor) : Tensor :=
  let k := t.shape.getLastD 1
  let outShape := t.shape.dropLast
  ⟨outShape, (List.range outShape.prod).map
      (fun r => ((argmaxRow ((t.data.drop (r * k)).take k) : Nat) : Rat))⟩

/-- Truncation of a rational toward zero (the rounding used by an
integer-valued `tf.cast`): t-division of the normalized numerator by the
denominator. -/
def ratTrunc (q : Rat) : Int := q.num.tdiv q.den

/-- Wrap an integer into the two's-complement `int32` range. -/
def wrap32 (z : Int) : Int := (z + 2 ^ 31) % 2 ^ 32 - 2 ^ 31

/-- `tf.cast(x, tf.int32)` on values: truncate toward zero and wrap into the
32-bit signed range. -/
def tfCastInt32 (t : Tensor) : Tensor :=
  ⟨t.shape, t.data.map (fun q => ((wrap32 (ratTrunc q) : Int) : Rat))⟩

/-- The common tail of `accuracy` (metrics.py lines 200-203): elementwise
equality against the (possibly decoded) predictions, cast to floating
point, multiplied by the weights; returns the scored tensor together with
the input weights unchanged. -/
def scoreAgainst (targets preds weights : Tensor) : Except Err (Tensor × Tensor) :=
  match tfEqual targets preds with
  | .error e => .error e
  | .ok c =>
      match tfMultiply (tfCastFloat c) weights with
      | .error e => .error e
      | .ok s => .ok (s, weights)

/-- `accuracy` (metrics.py lines 168-203): when the predictions' rank
exceeds the targets' rank, a difference greater than one raises the rank
`ValueError`; a difference of exactly one decodes the predictions by
arg-max over the trailing axis followed by a cast to `int32`.  The
(possibly decoded) predictions are then scored against the targets. -/
def accuracy (targets predictions weights : Tensor) : Except Err (Tensor × Tensor) :=
  if predictions.rank > targets.rank then
    if predictions.rank - targets.rank > 1 then
      .error (.rank predictions.rank targets.rank)
    else
      scoreAgainst targets (tfCastInt32 (tfArgmaxLast predictions)) weights
  else
    scoreAgainst targets predictions weights

/-- Python truthiness of an optional list argument: `if xs:` is taken for a
present, non-empty list only. -/
def listTruthy : Option (List String) → Bool
  | none => false
  | some l => !l.isEmpty

/-- Python string-or semantics of `scope or self._name` (metrics.py line
130): `None` and the empty string are falsy and fall back to the
default. -/
def pyStrOr : Option String → String → String
  | none, d => d
  | some s, d => if s = "" then d else s

/-- A graph handle published by a metric: the running-value read tensor of
an accumulator, or its update operation.  The `Nat` identifies the
accumulator instance the handle refers to. -/
inductive Handle where
  | avgValue (avgId : Nat)
  | avgUpdate (avgId : Nat)
deriving DecidableEq

/-- One declared accumulation step: which accumulator was declared, the
variable-scope name it was built under, and the (values, weights) tensors
fed to it. -/
structure AvgDecl where
  avgId : Nat
  scope : String
  values : Tensor
  weights : Tensor
deriving DecidableEq

/-- The observable graph-construction state: the named collections (a log
of (collection-name, handle) publications, a collection being the handles
logged under its name) and the accumulation steps declared so far. -/
structure GraphState where
  collections : List (String × Handle)
  declared : List AvgDecl
deriving DecidableEq

/-- Modelled from the spec: `liteflow.utils.add_to_collections` (the
`utils` module is not part of the sources) publishes a value into each
named registry; publishing is additive (append), never replacing prior
registry contents. -/
def addToCollections (keys : List String) (h : Handle) (c : List (String × Handle)) :
    List (String × Handle) :=
  c ++ keys.map (fun k => (k, h))

/-- Modelled from the spec: `StreamingAverage.compute` (the `streaming`
module is not part of the sources) declares the accumulation step for one
batch's (values, weights) under the given scope; declaration allocates
graph nodes and mutates no accumulator runtime state. -/
def avgComputeDecl (σ : GraphState) (avgId : Nat) (scope : String)
    (values weights : Tensor) : GraphState :=
  { σ with declared := σ.declared ++ [⟨avgId, scope, values, weights⟩] }

/-- A `StreamingMetric` object (metrics.py lines 8-165): the wrapped
scoring function `self._func`, the identity of the bound
`StreamingAverage` instance `self._avg`, and the metric's assigned name
`self._name`. -/
structure StreamingMetric where
  func : Tensor → Tensor → Tensor → Except Err (Tensor × Tensor)
  avgId : Nat
  name : String

/-- `StreamingMetric.__init__` (metrics.py lines 68-71): store the wrapped
function and `average or streaming.StreamingAverage()` — an explicitly
passed accumulator is bound as-is, otherwise a fresh instance is
allocated (`nextId` is the allocator counter, returned updated). -/
def mkStreamingMetric (func : Tensor → Tensor → Tensor → Except Err (Tensor × Tensor))
    (average : Option Nat) (name : String) (nextId : Nat) : StreamingMetric × Nat :=
  match average with
  | some a => (⟨func, a, name⟩, nextId)
  | none => (⟨func, nextId, name⟩, nextId + 1)

/-- `StreamingMetric.value` (metrics.py lines 73-76): the handle of the
bound accumulator's running-value read, `self._avg.value`. -/
def StreamingMetric.value (m : StreamingMetric) : Handle := .avgValue m.avgId

/-- `StreamingMetric.update_op` (metrics.py lines 103-106): the handle of
the bound accumulator's update operation, `self._avg.update_op`. -/
def StreamingMetric.update_op (m : StreamingMetric) : Handle := .avgUpdate m.avgId

/-- `StreamingMetric.compute` (metrics.py lines 113-138): under the
variable scope `scope or self._name`, apply the wrapped function to
(targets, predictions, weights) and declare the accumulation of the
resulting (values, weights); then, when truthy, publish `self.value` into
each of `metrics_collections` and `self.update_op` into each of
`updates_collections`.  An exception raised by the wrapped function
propagates, leaving the state untouched. -/
def StreamingMetric.compute (m : StreamingMetric) (σ : GraphState)
    (targets predictions weights : Tensor)
    (metrics_collections updates_collections : Option (List String))
    (scope : Option String) : GraphState × Except Err Unit :=
  let sname := pyStrOr scope m.name
  match m.func targets predictions weights with
  | .error e => (σ, .error e)
  | .ok (values, weights2) =>
      let σ1 := avgComputeDecl σ m.avgId sname values weights2
      let σ2 := if listTruthy metrics_collections then
          { σ1 with collections :=
              addToCollections (metrics_collections.getD []) m.value σ1.collections }
        else σ1
      let σ3 := if listTruthy updates_collections then
          { σ2 with collections :=
              addToCollections (updates_collections.getD []) m.update_op σ2.collections }
        else σ2
      (σ3, .ok ())

/-- `StreamingMetric.__call__` (metrics.py lines 141-165): delegate to
`compute` with the same arguments, then return the pair
`(self.value, self.update_op)`; an exception from `compute`
propagates. -/
def StreamingMetric.call (m : StreamingMetric) (σ : GraphState)
    (targets predictions weights : Tensor)
    (metrics_collections updates_collections : Option (List String))
    (scope : Option String) : GraphState × Except Err (Handle × Handle) :=
  match m.compute σ targets predictions weights
      metrics_collections updates_collections scope with
  | (σ1, .ok _) => (σ1, .ok (m.value, m.update_op))
  | (σ1, .error e) => (σ1, .error e)

/-- Modelled from the spec: the runtime state of a `StreamingAverage`
accumulator (the `streaming` module is not part of the sources): the
cumulative running sum and weight, and the most recent batch's sum and
weight. -/
structure StreamingAverageState where
  running_sum : Rat
  running_weight : Rat
  batch_sum : Rat
  batch_weight : Rat
deriving DecidableEq

/-- Modelled from the spec: `StreamingAverage.value`, the running weighted
mean `running_sum / running_weight`, defined as 0 when the weight
denominator is 0. -/
def StreamingAverageState.value (s : StreamingAverageState) : Rat :=
  if s.running_weight = 0 then 0 else s.running_sum / s.running_weight

/-- Modelled from the spec: `StreamingAverage.count`, an alias of the
running weight. -/
def StreamingAverageState.count (s : StreamingAverageState) : Rat :=
  s.running_weight

/-- `StreamingMetric.value` as a read of the bound accumulator's runtime
state (metrics.py lines 73-76 return `self._avg.value`). -/
def StreamingMetric.valueRead (s : StreamingAverageState) : Rat := s.value

/-- `StreamingMetric.count` as a read of the bound accumulator's runtime
state (metrics.py lines 78-81 return `self._avg.count`). -/
def StreamingMetric.countRead (s : StreamingAverageState) : Rat := s.count

/-- `StreamingMetric.total` as a read of the bound accumulator's runtime
state: the source (metrics.py lines 83-86) returns `self._avg.value`, the
running mean, although its docstring reads "the total values of the
metric summed up so far". -/
def StreamingMetric.totalRead (s : StreamingAverageState) : Rat := s.value

/-- An elementwise operation only ever fails with a broadcast error. -/
theorem elementwise_broadcast_error (f : Rat → Rat → Rat) (a b : Tensor) (e : Err)
    (h : elementwise f a b = .error e) : e = .broadcast a.shape b.shape := by
  unfold elementwise at h
  split at h
  · simp at h
  · split at h
    · simp at h
    · injection h with h1
      exact h1.symm

/-- `tfEqual` only ever fails with a broadcast error. -/
theorem tfEqual_error_broadcast (a b : Tensor) (e : Err) (h : tfEqual a b = .error e) :
    e = .broadcast a.shape b.shape := by
  unfold tfEqual at h
  exact elementwise_broadcast_error _ a b e h

/-- `tfMultiply` only ever fails with a broadcast error. -/
theorem tfMultiply_error_broadcast (a b : Tensor) (e : Err) (h : tfMultiply a b = .error e) :
    e = .broadcast a.shape b.shape := by
  unfold tfMultiply at h
  exact elementwise_broadcast_error _ a b e h

/-- The scoring tail of `accuracy` never raises the rank error. -/
theorem scoreAgainst_no_rank (t p w : Tensor) (a b : Nat) :
    scoreAgainst t p w ≠ .error (.rank a b) := by
  unfold scoreAgainst
  cases h1 : tfEqual t p with
  | error e1 =>
      have h1b := tfEqual_error_broadcast t p e1 h1
      simp [h1b]
  | ok c =>
      cases h2 : tfMultiply (tfCastFloat c) w with
      | error e2 =>
          have h2b := tfMultiply_error_broadcast _ _ _ h2
          simp [h2, h2b]
      | ok s => simp [h2]

/-- C1 (counterexample): on `targets=[0,1,2]`, `predictions=[0,1,1]`,
`weights=[1,1,1]`, the code scores `[1,1,0]` — the first two entries
match and the third does not — and not `[1,0,0]` as the claim's example
states. -/
theorem accuracy_example_counterexample :
    accuracy ⟨[3], [0, 1, 2]⟩ ⟨[3], [0, 1, 1]⟩ ⟨[3], [1, 1, 1]⟩
        = .ok (⟨[3], [1, 1, 0]⟩, ⟨[3], [1, 1, 1]⟩)
      ∧ (⟨[3], [1, 1, 0]⟩ : Tensor) ≠ ⟨[3], [1, 0, 0]⟩ := by
  refine ⟨?_, by decide⟩
  norm_num [accuracy, scoreAgainst, tfEqual, tfMultiply, tfCastFloat, elementwise, Tensor.rank]

/-- C1 (amended): for targets, predictions and weights of equal shape (so
of equal rank), `accuracy` returns the pair whose first component is the
elementwise equality of targets and predictions, cast to floating point
and multiplied elementwise by the weights, and whose second component is
the input weights tensor unchanged; for the claim's example the scored
tensor is `[1,1,0]`. -/
theorem accuracy_equal_shape_scores (t p w : Tensor)
    (hp : p.shape = t.shape) (hw : w.shape = t.shape) :
    accuracy t p w = .ok
      (⟨t.shape, List.zipWith (fun x y => x * y)
          (List.zipWith (fun a b => if a = b then (1 : Rat) else 0) t.data p.data)
          w.data⟩, w) := by
  simp [accuracy, scoreAgainst, tfEqual, tfMultiply, tfCastFloat, elementwise,
    Tensor.rank, hp, hw]

/-- C1 (witness): the amended claim at the claim's example input. -/
theorem accuracy_equal_shape_scores_witness :
    accuracy ⟨[3], [0, 1, 2]⟩ ⟨[3], [0, 1, 1]⟩ ⟨[3], [1, 1, 1]⟩
      = .ok (⟨[3], [1, 1, 0]⟩, ⟨[3], [1, 1, 1]⟩) := by
  have h := accuracy_equal_shape_scores ⟨[3], [0, 1, 2]⟩ ⟨[3], [0, 1, 1]⟩
    ⟨[3], [1, 1, 1]⟩ rfl rfl
  rw [h]
  norm_num

/-- C2: when the predictions' rank exceeds the targets' rank by more than
one, `accuracy` fails with the rank error, whose message renders both
observed ranks, and `StreamingMetric.compute` built over `accuracy`
propagates the failure leaving the graph state (declared accumulations
and collections) entirely unchanged. -/
theorem accuracy_rank_violation (t p w : Tensor) (h : t.rank + 1 < p.rank) :
    accuracy t p w = .error (.rank p.rank t.rank)
    ∧ (∃ a b c : String, (Err.rank p.rank t.rank).message
        = a ++ (toString p.rank ++ (b ++ (toString t.rank ++ c))))
    ∧ ∀ (i : Nat) (n : String) (σ : GraphState)
        (mc uc : Option (List String)) (sc : Option String),
        StreamingMetric.compute ⟨accuracy, i, n⟩ σ t p w mc uc sc
          = (σ, .error (.rank p.rank t.rank)) := by
  have hacc : accuracy t p w = .error (.rank p.rank t.rank) := by
    unfold accuracy
    rw [if_pos (by omega), if_pos (by omega)]
  refine ⟨hacc, ⟨_, " and ", _, rfl⟩, ?_⟩
  intro i n σ mc uc sc
  simp [StreamingMetric.compute, hacc]

/-- C2 (witness): scalar targets against rank-2 predictions. -/
theorem accuracy_rank_violation_witness :
    accuracy ⟨[], [5]⟩ ⟨[1, 1], [5]⟩ ⟨[], [1]⟩ = .error (.rank 2 0) :=
  (accuracy_rank_violation ⟨[], [5]⟩ ⟨[1, 1], [5]⟩ ⟨[], [1]⟩ (by decide)).1

/-- C3: when the predictions' rank exceeds the targets' rank by exactly
one, `accuracy` decodes the predictions by arg-max over the trailing axis
followed by the cast to the targets' integer dtype (`tf.int32`), and
scores the decoded labels against the targets. -/
theorem accuracy_argmax_decode (t p w : Tensor) (h : p.rank = t.rank + 1) :
    accuracy t p w = scoreAgainst t (tfCastInt32 (tfArgmaxLast p)) w := by
  unfold accuracy
  rw [if_pos (by omega), if_neg (by omega)]

/-- C3 (witness): `targets=[1]`, `predictions=[[0.1,0.7,0.2]]` decodes to
label 1 and scores `[1]`. -/
theorem accuracy_argmax_decode_witness :
    accuracy ⟨[1], [1]⟩ ⟨[1, 3], [1/10, 7/10, 2/10]⟩ ⟨[1], [1]⟩
      = .ok (⟨[1], [1]⟩, ⟨[1], [1]⟩) := by
  have h := accuracy_argmax_decode ⟨[1], [1]⟩ ⟨[1, 3], [1/10, 7/10, 2/10]⟩
    ⟨[1], [1]⟩ (by decide)
  rw [h]
  norm_num [scoreAgainst, tfEqual, tfMultiply, tfCastFloat, elementwise, Tensor.rank,
    tfCastInt32, tfArgmaxLast, argmaxRow, argmaxAux, ratTrunc, wrap32, List.getLastD,
    List.range_succ, Int.tdiv]

/-- C4: the metric's `total` view does not read the accumulator's running
sum: on the state with `running_sum = 2` and `running_weight = 4` it
reads the running mean 1/2, differing from the running sum 2; the `count`
view does equal the running weight. -/
theorem metric_total_reads_running_mean :
    StreamingMetric.totalRead ⟨2, 4, 2, 4⟩ = 1 / 2
    ∧ (⟨2, 4, 2, 4⟩ : StreamingAverageState).running_sum = 2
    ∧ StreamingMetric.totalRead ⟨2, 4, 2, 4⟩
        ≠ (⟨2, 4, 2, 4⟩ : StreamingAverageState).running_sum
    ∧ StreamingMetric.countRead ⟨2, 4, 2, 4⟩
        = (⟨2, 4, 2, 4⟩ : StreamingAverageState).running_weight := by
  refine ⟨?_, rfl, ?_, rfl⟩ <;>
    norm_num [StreamingMetric.totalRead, StreamingMetric.countRead,
      StreamingAverageState.value, StreamingAverageState.count]

/-- C5: the function-call form declares exactly the computation of
`compute` with identical arguments — the resulting graph state is the
same — and returns, on success, the pair of the running-value read handle
and the update-action handle. -/
theorem metric_call_returns_value_and_update (m : StreamingMetric) (σ : GraphState)
    (t p w : Tensor) (mc uc : Option (List String)) (sc : Option String) :
    m.call σ t p w mc uc sc
      = ((m.compute σ t p w mc uc sc).1,
         (m.compute σ t p w mc uc sc).2.map (fun _ => (m.value, m.update_op))) := by
  unfold StreamingMetric.call
  rw [show m.compute σ t p w mc uc sc
      = ((m.compute σ t p w mc uc sc).1, (m.compute σ t p w mc uc sc).2) from rfl]
  cases h : (m.compute σ t p w mc uc sc).2 <;> simp [Except.map]

/-- C6: `compute` publishes the running-value read handle into each
collection named in `metrics_collections` and the update-action handle
into each collection named in `updates_collections`, by appending to the
existing publication log; an absent or empty key list leaves the
collections untouched, and prior contents are never replaced. -/
theorem metric_compute_publishes_collections (m : StreamingMetric) (σ : GraphState)
    (t p w v vw : Tensor) (mc uc : Option (List String)) (sc : Option String)
    (h : m.func t p w = .ok (v, vw)) :
    (m.compute σ t p w mc uc sc).1.collections
      = σ.collections
        ++ (if listTruthy mc then (mc.getD []).map (fun k => (k, Handle.avgValue m.avgId)) else [])
        ++ (if listTruthy uc then (uc.getD []).map (fun k => (k, Handle.avgUpdate m.avgId)) else []) := by
  by_cases h1 : listTruthy mc = true <;> by_cases h2 : listTruthy uc = true <;>
    simp [StreamingMetric.compute, h, h1, h2, addToCollections, avgComputeDecl,
      StreamingMetric.value, StreamingMetric.update_op, List.append_assoc]

/-- C6 (witness): one metrics collection receives the value handle, an
empty updates key list is a no-op, and the prior entry is preserved. -/
theorem metric_compute_publishes_collections_witness :
    (StreamingMetric.compute ⟨accuracy, 3, "acc"⟩ ⟨[("old", Handle.avgValue 7)], []⟩
        ⟨[3], [0, 1, 2]⟩ ⟨[3], [0, 1, 1]⟩ ⟨[3], [1, 1, 1]⟩
        (some ["metrics"]) (some []) none).1.collections
      = [("old", Handle.avgValue 7), ("metrics", Handle.avgValue 3)] := by
  have h := metric_compute_publishes_collections ⟨accuracy, 3, "acc"⟩
      ⟨[("old", Handle.avgValue 7)], []⟩
      ⟨[3], [0, 1, 2]⟩ ⟨[3], [0, 1, 1]⟩ ⟨[3], [1, 1, 1]⟩
      ⟨[3], [1, 1, 0]⟩ ⟨[3], [1, 1, 1]⟩
      (some ["metrics"]) (some []) none
      (by norm_num [accuracy, scoreAgainst, tfEqual, tfMultiply, tfCastFloat, elementwise,
        Tensor.rank])
  rw [h]
  decide

/-- C7 (counterexample): with the caller-supplied scope equal to the empty
string, the accumulation is declared under the adapter's own name
("acc"), not under the supplied scope. -/
theorem metric_scope_empty_counterexample :
    (StreamingMetric.compute ⟨accuracy, 0, "acc"⟩ ⟨[], []⟩
        ⟨[3], [0, 1, 2]⟩ ⟨[3], [0, 1, 1]⟩ ⟨[3], [1, 1, 1]⟩ none none (some "")).1.declared
      = [⟨0, "acc", ⟨[3], [1, 1, 0]⟩, ⟨[3], [1, 1, 1]⟩⟩]
    ∧ ("acc" : String) ≠ "" := by
  refine ⟨?_, by decide⟩
  norm_num [StreamingMetric.compute, accuracy, scoreAgainst, tfEqual, tfMultiply,
    tfCastFloat, elementwise, Tensor.rank, avgComputeDecl, listTruthy, pyStrOr]

/-- C7 (amended): the graph is built under the scope `scope or self._name`
in the Python truthiness sense: under the caller-supplied scope name when
a non-empty one is given, and under the adapter's own assigned name when
the scope argument is absent or the empty string. -/
theorem metric_compute_scope_naming (m : StreamingMetric) (σ : GraphState)
    (t p w v vw : Tensor) (mc uc : Option (List String)) (sc : Option String)
    (h : m.func t p w = .ok (v, vw)) :
    (m.compute σ t p w mc uc sc).1.declared
      = σ.declared ++ [⟨m.avgId, pyStrOr sc m.name, v, vw⟩]
    ∧ ((sc = none ∨ sc = some "") → pyStrOr sc m.name = m.name)
    ∧ (∀ s : String, sc = some s → s ≠ "" → pyStrOr sc m.name = s) := by
  refine ⟨?_, ?_, ?_⟩
  · by_cases h1 : listTruthy mc = true <;> by_cases h2 : listTruthy uc = true <;>
      simp [StreamingMetric.compute, h, h1, h2, avgComputeDecl]
  · rintro (rfl | rfl) <;> simp [pyStrOr]
  · rintro s rfl hs
    simp [pyStrOr, hs]

/-- C7 (witness): a non-empty caller-supplied scope is the one built
under. -/
theorem metric_compute_scope_naming_witness :
    (StreamingMetric.compute ⟨accuracy, 0, "acc"⟩ ⟨[], []⟩
        ⟨[3], [0, 1, 2]⟩ ⟨[3], [0, 1, 1]⟩ ⟨[3], [1, 1, 1]⟩ none none (some "stats")).1.declared
      = [⟨0, "stats", ⟨[3], [1, 1, 0]⟩, ⟨[3], [1, 1, 1]⟩⟩] := by
  have h := metric_compute_scope_naming ⟨accuracy, 0, "acc"⟩ ⟨[], []⟩
      ⟨[3], [0, 1, 2]⟩ ⟨[3], [0, 1, 1]⟩ ⟨[3], [1, 1, 1]⟩
      ⟨[3], [1, 1, 0]⟩ ⟨[3], [1, 1, 1]⟩ none none (some "stats")
      (by norm_num [accuracy, scoreAgainst, tfEqual, tfMultiply, tfCastFloat, elementwise,
        Tensor.rank])
  rw [h.1]
  decide

/-- C8: `accuracy` is deterministic — two runs on equal inputs return
equal outputs; the embedding is a pure function of its inputs, mirroring
the source, which only constructs new tensors and never assigns to its
arguments or to any other state. -/
theorem accuracy_deterministic (t p w t' p' w' : Tensor)
    (ht : t = t') (hp : p = p') (hw : w = w') :
    accuracy t p w = accuracy t' p' w' := by
  rw [ht, hp, hw]

/-- C8 (witness): two runs on the example input agree. -/
theorem accuracy_deterministic_witness :
    accuracy ⟨[3], [0, 1, 2]⟩ ⟨[3], [0, 1, 1]⟩ ⟨[3], [1, 1, 1]⟩
      = accuracy ⟨[3], [0, 1, 2]⟩ ⟨[3], [0, 1, 1]⟩ ⟨[3], [1, 1, 1]⟩ :=
  accuracy_deterministic _ _ _ _ _ _ rfl rfl rfl

/-- C9 (counterexample): with ranks satisfying
`rank(predictions) ≤ rank(targets)` (here both 1), `accuracy` can still
fail: shapes `[2]` and `[3]` are not elementwise-compatible and the
comparison errors at graph construction. -/
theorem accuracy_low_rank_counterexample :
    Tensor.rank ⟨[3], [0, 0, 0]⟩ ≤ Tensor.rank ⟨[2], [0, 0]⟩
    ∧ accuracy ⟨[2], [0, 0]⟩ ⟨[3], [0, 0, 0]⟩ ⟨[2], [1, 1]⟩
        = .error (.broadcast [2] [3]) := by
  refine ⟨by decide, ?_⟩
  norm_num [accuracy, scoreAgainst, tfEqual, tfMultiply, tfCastFloat, elementwise,
    Tensor.rank, broadcastShapes, broadcastDims, padShape]

/-- C9 (amended): whenever `rank(predictions) ≤ rank(targets)` — including
the strictly-smaller case — the rank check never fires and no arg-max
decoding is applied: `accuracy` equals the plain elementwise scoring of
the original predictions against the targets, and in particular it never
returns the rank error (though the elementwise comparison itself can
still fail on incompatible shapes). -/
theorem accuracy_low_rank_no_decode (t p w : Tensor) (h : p.rank ≤ t.rank) :
    accuracy t p w = scoreAgainst t p w
    ∧ ∀ (a b : Nat), accuracy t p w ≠ .error (.rank a b) := by
  have heq : accuracy t p w = scoreAgainst t p w := by
    unfold accuracy
    rw [if_neg (by omega)]
  exact ⟨heq, fun a b => heq ▸ scoreAgainst_no_rank t p w a b⟩

/-- C9 (witness): the amended claim at an equal-rank input. -/
theorem accuracy_low_rank_no_decode_witness :
    accuracy ⟨[2], [0, 1]⟩ ⟨[2], [0, 1]⟩ ⟨[2], [1, 1]⟩
      = scoreAgainst ⟨[2], [0, 1]⟩ ⟨[2], [0, 1]⟩ ⟨[2], [1, 1]⟩ :=
  (accuracy_low_rank_no_decode ⟨[2], [0, 1]⟩ ⟨[2], [0, 1]⟩ ⟨[2], [1, 1]⟩ (by decide)).1

/-- C10: constructing two metrics without an explicit average binds them to
distinct freshly allocated accumulators, so they never share accumulator
state; passing the same explicit average instance to both is the only way
to share it. -/
theorem metric_fresh_average_not_shared
    (f g : Tensor → Tensor → Tensor → Except Err (Tensor × Tensor))
    (n n' : String) (c : Nat) :
    (mkStreamingMetric f none n c).1.avgId
        ≠ (mkStreamingMetric g none n' (mkStreamingMetric f none n c).2).1.avgId
    ∧ ∀ a : Nat,
        (mkStreamingMetric f (some a) n c).1.avgId
          = (mkStreamingMetric g (some a) n' c).1.avgId := by
  refine ⟨?_, fun a => ?_⟩
  · simp only [mkStreamingMetric]
    omega
  · simp [mkStreamingMetric]
